import Mathlib

/-
  Verification of the csi-certify driver-applicability and configuration logic.

  Shallow embedding of:
  - pkg/certify/external/external.go           (YAML-defined driver, namespace External)
  - pkg/certify/external-testdriver/driver-call.go (shell-script driver, namespace ExtTestdriver)
  - the externalBash adapter (bash-testdriver flag, namespace ExternalBash)
  - pkg/certify/certify.go                     (namespace Certify)

  Go strings become String; Go string-typed enumerations (TestVolType,
  TestSnapshotType) stay String, with the library constants as named
  definitions; Go map[string]string becomes an association list, with nil
  maps represented by Option; effects (framework.Skipf, gomega Expect
  failures, panic, defining ginkgo tests) become explicit outcome values;
  external subprocess / file / decode results that the repository code only
  consumes become parameters of the embedded functions.
-/

namespace CsiCertify

/-- Constant from the k8s e2e testpatterns package: DynamicPV volume type. -/
def DynamicPV : String := "DynamicPV"

/-- Constant from the k8s e2e testpatterns package: PreprovisionedPV volume type. -/
def PreprovisionedPV : String := "PreprovisionedPV"

/-- Constant from the k8s e2e testpatterns package: InlineVolume volume type. -/
def InlineVolume : String := "InlineVolume"

/-- Constant from the k8s e2e testpatterns package: DynamicCreatedSnapshot = "DynamicSnapshot". -/
def DynamicCreatedSnapshot : String := "DynamicSnapshot"

/-- Parameter key injected for a requested filesystem type. -/
def fstypeParamKey : String := "csi.storage.k8s.io/fstype"

/-- testpatterns.TestPattern: volume lifecycle mode, filesystem type, snapshot mode.
In Go all three are string-typed. -/
structure TestPattern where
  VolType : String
  FsType : String
  SnapshotType : String
deriving DecidableEq

/-- The part of testsuites.DriverInfo the repository's decision logic reads
(only the driver name reaches the skip and storage-class derivation code). -/
structure DriverInfo where
  Name : String
deriving DecidableEq

/-- The anonymous StorageClass struct of driverDefinition (external.go lines
113-129, identical in utils.DriverDefinition): FromName derives a class from
the driver name, otherwise FromFile names a manifest file. -/
structure StorageClassStrategy where
  FromName : Bool
  FromFile : String
deriving DecidableEq

/-- The anonymous SnapshotClass struct of driverDefinition: only FromName exists. -/
structure SnapshotClassStrategy where
  FromName : Bool
deriving DecidableEq

/-- driverDefinition (external.go lines 100-149) = utils.DriverDefinition:
the YAML/JSON-decoded driver description. -/
structure DriverDefinition where
  DriverInfo : DriverInfo
  ShortName : String := ""
  StorageClass : StorageClassStrategy
  SnapshotClass : SnapshotClassStrategy
  ClaimSize : String := "5Gi"
  ClientNodeName : String := ""
deriving DecidableEq

/-- Outcome of SkipUnsupportedTest: either the test proceeds, or
framework.Skipf(format, args...) aborts it with a skip. The skip records the
format string and the interpolated arguments. -/
inductive SkipOutcome where
  | run
  | skip (format : String) (args : List String)
deriving DecidableEq

/-- Format string of the volume-type skip diagnostic
(external.go line 173, driver-call.go line 151). -/
def volTypeFmt : String := "Driver %q does not support volume type %q - skipping"

/-- Format string of the snapshot-type skip diagnostic
(external.go line 186, driver-call.go line 164). -/
def snapTypeFmt : String := "Driver %q does not support snapshot type %q - skipping"

/-- Go map assignment m[k] = v on an association list: replaces the binding
of k if present, otherwise appends it. -/
def mapSet (m : List (String × String)) (k v : String) : List (String × String) :=
  match m with
  | [] => [(k, v)]
  | (k0, v0) :: rest => if k0 = k then (k, v) :: rest else (k0, v0) :: mapSet rest k v

/-- Go map lookup m[k] on an association list. -/
def mapGet (m : List (String × String)) (k : String) : Option String :=
  match m with
  | [] => none
  | (k0, v0) :: rest => if k0 = k then some v0 else mapGet rest k

/-- storagev1.StorageClass, restricted to the fields this repository reads or
writes; parameters is Option because a Go map can be nil. -/
structure StorageClass where
  name : String
  provisioner : String
  parameters : Option (List (String × String))
deriving DecidableEq

/-- An object decoded from a storage-class manifest file: either a
StorageClass or some other runtime object (the type assertion in the Go code
distinguishes exactly these two cases). -/
inductive ManifestItem where
  | storageClass (sc : StorageClass)
  | otherObject (kind : String)
deriving DecidableEq

/-- Outcome of GetDynamicProvisionStorageClass: a StorageClass, a fatal test
failure (a failed gomega Expect), or a framework.Skipf skip (present in the
codomain because other methods of the same interface do skip; this method
never produces it, which is part of what is proved). -/
inductive SCResult where
  | ok (sc : StorageClass)
  | fatal (msg : String)
  | skip (format : String) (args : List String)
deriving DecidableEq

/-- Modelled from the spec: testsuites.GetStorageClass belongs to the external
Kubernetes e2e library (k8s.io/kubernetes/test/e2e/storage/testsuites) and is
not part of this repository. Per the spec, section 4.2: provisioner = driver
name, the given parameters, and "Class name = <provisioner>-sc", i.e. the
suffix the caller passes in. The ns argument mirrors the Go call shape. -/
def GetStorageClass (provisioner : String) (parameters : List (String × String))
    (ns : String) (suffix : String) : StorageClass :=
  let _ := ns
  { name := suffix, provisioner := provisioner, parameters := some parameters }

/-- Go fmt %q / errors.Errorf %q quoting, for names without characters that
need escaping. -/
def goQuote (s : String) : String := "\"" ++ s ++ "\""

namespace External

/-- Volume-type arm of driverDefinition.SkipUnsupportedTest (external.go lines
164-171): the local supported flag after the switch on pattern.VolType. Only
the DynamicPV case can set it. -/
def volTypeSupported (d : DriverDefinition) (p : TestPattern) : Bool :=
  if p.VolType = DynamicPV then
    d.StorageClass.FromName || decide (d.StorageClass.FromFile ≠ "")
  else false

/-- Snapshot-type arm of driverDefinition.SkipUnsupportedTest (external.go
lines 176-184): the local supported flag after the switch on
pattern.SnapshotType. -/
def snapTypeSupported (d : DriverDefinition) (p : TestPattern) : Bool :=
  if p.SnapshotType = "" then true
  else if p.SnapshotType = DynamicCreatedSnapshot then d.SnapshotClass.FromName
  else false

/-- driverDefinition.SkipUnsupportedTest (external.go lines 163-188): skip on
an unsupported volume type, else skip on an unsupported snapshot type, else
proceed. framework.Skipf aborts the test, so the second check only runs when
the first passes. -/
def SkipUnsupportedTest (d : DriverDefinition) (p : TestPattern) : SkipOutcome :=
  if !(volTypeSupported d p) then
    .skip volTypeFmt [d.DriverInfo.Name, p.VolType]
  else if !(snapTypeSupported d p) then
    .skip snapTypeFmt [d.DriverInfo.Name, p.SnapshotType]
  else .run

/-- driverDefinition.GetDynamicProvisionStorageClass (external.go lines
190-221; the copies in driver-call.go lines 209-240 and in the externalBash
adapter are textually identical). ns is the test framework namespace name;
loadResult abstracts f.LoadFromManifests on StorageClass.FromFile; patchResult
abstracts f.PatchItems. Failed gomega Expect calls become SCResult.fatal. -/
def GetDynamicProvisionStorageClass (d : DriverDefinition) (ns : String) (fsType : String)
    (loadResult : Except String (List ManifestItem))
    (patchResult : Except String Unit) : SCResult :=
  if d.StorageClass.FromName then
    let provisioner := d.DriverInfo.Name
    let parameters : List (String × String) := []
    let suffix := provisioner ++ "-sc"
    let parameters :=
      if fsType ≠ "" then mapSet parameters fstypeParamKey fsType else parameters
    .ok (GetStorageClass provisioner parameters ns suffix)
  else
    match loadResult with
    | .error _ => .fatal ("load storage class from " ++ d.StorageClass.FromFile)
    | .ok items =>
      match items with
      | [item] =>
        match patchResult with
        | .error _ => .fatal "patch items"
        | .ok _ =>
          match item with
          | .storageClass sc =>
            if fsType ≠ "" then
              .ok { sc with
                    parameters := some (mapSet (sc.parameters.getD []) fstypeParamKey fsType) }
            else .ok sc
          | .otherObject _ => .fatal ("storage class from " ++ d.StorageClass.FromFile)
      | _ => .fatal ("exactly one item from " ++ d.StorageClass.FromFile)

end External

/-- Outcome of a flag handler Set call: a returned non-nil error (which makes
flag parsing, and with it the whole run, fail), a framework.Failf fatal
failure, or success with the ginkgo Describe block registered for the named
driver. -/
inductive SetOutcome where
  | flagError (msg : String)
  | fatal (msg : String)
  | testsDefined (driverName : String)
deriving DecidableEq

namespace External

/-- DriverDefParameter.Set (external.go lines 38-55). The first statement sets
the package global RunCustomTestDriver to false; the returned Bool is its
value when the call returns. loadResult abstracts ioutil.ReadFile plus
runtime.DecodeInto inside loadDriverDefinition; the empty-filename check of
loadDriverDefinition (line 58) is kept explicit. -/
def DriverDefParameter.Set (filename : String)
    (loadResult : Except String DriverDefinition) : Bool × SetOutcome :=
  let runCustomTestDriver := false
  match (if filename = "" then Except.error "missing file name" else loadResult) with
  | .error e => (runCustomTestDriver, .flagError e)
  | .ok driver =>
    if driver.DriverInfo.Name = "" then
      (runCustomTestDriver, .flagError (goQuote filename ++ ": DriverInfo.Name not set"))
    else (runCustomTestDriver, .testsDefined driver.DriverInfo.Name)

end External

namespace ExtTestdriver

/-- The three package globals of driver-call.go that getTestDriverType writes
(lines 35-37). -/
structure TdFlags where
  validTestDriver : Bool
  preprovisionedVolumeTestDriver : Bool
  preprovisionedPVTestDriver : Bool
deriving DecidableEq

/-- getTestDriverType (driver-call.go lines 317-321): validTestDriver is the
presence probe for getDriverInfo; preprovisionedVolumeTestDriver requires both
createVolume and deleteVolume; preprovisionedPVTestDriver copies it. The
checkBashFuncExists results are the three Bool inputs. -/
def getTestDriverType (hasGetDriverInfo hasCreateVolume hasDeleteVolume : Bool) : TdFlags :=
  let preprovisionedVolume := hasCreateVolume && hasDeleteVolume
  { validTestDriver := hasGetDriverInfo
    preprovisionedVolumeTestDriver := preprovisionedVolume
    preprovisionedPVTestDriver := preprovisionedVolume }

/-- Volume-type arm of driverDefinition.SkipUnsupportedTest (driver-call.go
lines 138-149): like the external.go version plus the PreprovisionedPV case,
which reads the two package globals. -/
def volTypeSupported (g : TdFlags) (d : DriverDefinition) (p : TestPattern) : Bool :=
  if p.VolType = DynamicPV then
    d.StorageClass.FromName || decide (d.StorageClass.FromFile ≠ "")
  else if p.VolType = PreprovisionedPV then
    g.preprovisionedPVTestDriver || g.preprovisionedVolumeTestDriver
  else false

/-- Snapshot-type arm of driverDefinition.SkipUnsupportedTest (driver-call.go
lines 154-162), identical to the external.go version. -/
def snapTypeSupported (d : DriverDefinition) (p : TestPattern) : Bool :=
  if p.SnapshotType = "" then true
  else if p.SnapshotType = DynamicCreatedSnapshot then d.SnapshotClass.FromName
  else false

/-- driverDefinition.SkipUnsupportedTest (driver-call.go lines 137-166). -/
def SkipUnsupportedTest (g : TdFlags) (d : DriverDefinition) (p : TestPattern) : SkipOutcome :=
  if !(volTypeSupported g d p) then
    .skip volTypeFmt [d.DriverInfo.Name, p.VolType]
  else if !(snapTypeSupported d p) then
    .skip snapTypeFmt [d.DriverInfo.Name, p.SnapshotType]
  else .run

/-- The package globals of driver-call.go written by DriverCall.Set and
getTestDriverType (lines 30-37). -/
structure ExtTdState where
  RunCustomTestDriver : Bool
  scriptName : String
  flags : TdFlags
deriving DecidableEq

/-- Message of the framework.Failf call in DriverCall.Set (driver-call.go
line 67) and of the errors.Errorf in the bash-testdriver Set. -/
def invalidTestDriverMsg : String := "Invalid TestDriver, must include getDriverInfo() function"

/-- DriverCall.Set (driver-call.go lines 56-80). Order as in the source:
RunCustomTestDriver := false and scriptName := filename first, then
getDriverDefinition (which runs the script's getDriverInfo and decodes its
output; decodeResult abstracts that, with the empty-filename check of line 83
explicit), then getTestDriverType, then the error return, then the
validTestDriver Failf, then the empty-name check, then Describe. -/
def DriverCall.Set (filename : String)
    (hasGetDriverInfo hasCreateVolume hasDeleteVolume : Bool)
    (decodeResult : Except String DriverDefinition) : ExtTdState × SetOutcome :=
  let g := getTestDriverType hasGetDriverInfo hasCreateVolume hasDeleteVolume
  let st : ExtTdState := { RunCustomTestDriver := false, scriptName := filename, flags := g }
  match (if filename = "" then Except.error "missing file name" else decodeResult) with
  | .error e => (st, .flagError e)
  | .ok driver =>
    if g.validTestDriver = false then (st, .fatal invalidTestDriverMsg)
    else if driver.DriverInfo.Name = "" then
      (st, .flagError (goQuote filename ++ ": DriverInfo.Name not set"))
    else (st, .testsDefined driver.DriverInfo.Name)

/-- Outcome of driverDefinition.CreateVolume: either a test volume whose
volumeAttrib map holds the parsed attributes, or a Go panic. -/
inductive VolumeOutcome where
  | volume (volumeAttrib : List (String × String))
  | panic (msg : String)
deriving DecidableEq

/-- driverDefinition.CreateVolume (driver-call.go lines 168-193): runs the
script's createVolume via execCommand and json.Unmarshal's its standard
output into map[string]string. execOut is the []byte execCommand returned
(none for the nil it returns when the subprocess failed); parseStringMap
abstracts json.Unmarshal into map[string]string. json.Unmarshal of a nil
byte slice always fails with "unexpected end of JSON input", so the none
case panics with that message; any other parse error also panics (line 180). -/
def CreateVolume (parseStringMap : String → Except String (List (String × String)))
    (execOut : Option String) : VolumeOutcome :=
  match execOut with
  | none => .panic "unexpected end of JSON input"
  | some out =>
    match parseStringMap out with
    | .error e => .panic e
    | .ok response => .volume response

/-- The kubectl cluster configuration the adapters mutate: the current
context's name and its namespace entry. -/
structure KubeCtx where
  contextName : String
  contextNamespace : String
deriving DecidableEq

/-- setCurrentNameSpace (driver-call.go lines 293-315): kubectl config
set-context <current-context> --namespace=<namespace>, i.e. it overwrites the
namespace of the current context. -/
def setCurrentNameSpace (namespace0 : String) (ctx : KubeCtx) : KubeCtx :=
  { ctx with contextNamespace := namespace0 }

/-- execCommand (driver-call.go lines 270-291): sets the kubectl namespace to
the package global currentNameSpace, runs the script function, and on success
returns its stdout immediately (the early return on line 285 skips the final
setCurrentNameSpace); only on failure does it fall through to set the
namespace to "default" and return nil. cmdSucceeds and stdout abstract
cmd.Run. -/
def execCommand (currentNameSpace : String) (cmdSucceeds : Bool) (stdout : String)
    (ctx : KubeCtx) : KubeCtx × Option String :=
  let ctx1 := setCurrentNameSpace currentNameSpace ctx
  if cmdSucceeds then (ctx1, some stdout)
  else (setCurrentNameSpace "default" ctx1, none)

end ExtTestdriver

namespace ExternalBash

/-- bashDriver (externalBash adapter lines 131-135): utils.DriverDefinition
embedded plus the two probe results, stored per driver rather than in package
globals. -/
structure bashDriver extends DriverDefinition where
  preprovisionedVolumeTestDriver : Bool
  preprovisionedPVTestDriver : Bool
deriving DecidableEq

/-- Probe wiring of BashDriverParameter.getDriverDefinition (externalBash
adapter lines 100-101): preprovisionedVolumeTestDriver is the conjunction of
the createVolume and deleteVolume presence probes and
preprovisionedPVTestDriver copies it. -/
def mkBashDriver (dd : DriverDefinition) (hasCreateVolume hasDeleteVolume : Bool) : bashDriver :=
  { toDriverDefinition := dd
    preprovisionedVolumeTestDriver := hasCreateVolume && hasDeleteVolume
    preprovisionedPVTestDriver := hasCreateVolume && hasDeleteVolume }

/-- Volume-type arm of bashDriver.SkipUnsupportedTest (externalBash adapter
lines 142-153). -/
def volTypeSupported (b : bashDriver) (p : TestPattern) : Bool :=
  if p.VolType = DynamicPV then
    b.StorageClass.FromName || decide (b.StorageClass.FromFile ≠ "")
  else if p.VolType = PreprovisionedPV then
    b.preprovisionedPVTestDriver || b.preprovisionedVolumeTestDriver
  else false

/-- Snapshot-type arm of bashDriver.SkipUnsupportedTest (externalBash adapter
lines 158-166). -/
def snapTypeSupported (b : bashDriver) (p : TestPattern) : Bool :=
  if p.SnapshotType = "" then true
  else if p.SnapshotType = DynamicCreatedSnapshot then b.SnapshotClass.FromName
  else false

/-- bashDriver.SkipUnsupportedTest (externalBash adapter lines 141-170). -/
def SkipUnsupportedTest (b : bashDriver) (p : TestPattern) : SkipOutcome :=
  if !(volTypeSupported b p) then
    .skip volTypeFmt [b.DriverInfo.Name, p.VolType]
  else if !(snapTypeSupported b p) then
    .skip snapTypeFmt [b.DriverInfo.Name, p.SnapshotType]
  else .run

/-- BashDriverParameter.Set (externalBash adapter lines 50-74): sets
RunCustomTestDriver := false and scriptName, probes for getDriverInfo FIRST
and returns an error if it is absent, then loads the definition
(getDriverDefResult abstracts execCommand plus DecodeInto, with the
empty-filename check explicit), then checks the name, then Describes. The
returned Bool is RunCustomTestDriver after the call. -/
def BashDriverParameter.Set (filename : String) (hasGetDriverInfo : Bool)
    (getDriverDefResult : Except String DriverDefinition) : Bool × SetOutcome :=
  let runCustomTestDriver := false
  if hasGetDriverInfo = false then
    (runCustomTestDriver, .flagError ExtTestdriver.invalidTestDriverMsg)
  else
    match (if filename = "" then Except.error "missing file name" else getDriverDefResult) with
    | .error e => (runCustomTestDriver, .flagError e)
    | .ok driver =>
      if driver.DriverInfo.Name = "" then
        (runCustomTestDriver, .flagError (goQuote filename ++ ": DriverInfo.Name not set"))
      else (runCustomTestDriver, .testsDefined driver.DriverInfo.Name)

/-- bashDriver.CreateVolume (externalBash adapter lines 172-192): on an
execCommand error it calls framework.Failf; otherwise it json.Unmarshal's the
output and panics on a parse error. execResult abstracts execCommand's
(error, []byte) pair. Failf is rendered as a panic-style fatal outcome too,
distinguished by message. -/
def CreateVolume (parseStringMap : String → Except String (List (String × String)))
    (execResult : Except String String) : ExtTestdriver.VolumeOutcome :=
  match execResult with
  | .error e => .panic ("Unable to create volume: " ++ e)
  | .ok out =>
    match parseStringMap out with
    | .error e => .panic e
    | .ok response => .volume response

/-- execCommand (externalBash adapter lines 268-303): reads the current
namespace from the cluster configuration, sets the namespace to the
invocation's namespace (falling back to the current one when it is empty),
runs the script function, then restores the saved namespace before looking at
the command's error, so the restore happens on the success and on the failure
path alike. -/
def execCommand (namespaceToUse : String) (cmdSucceeds : Bool) (stdout : String)
    (ctx : ExtTestdriver.KubeCtx) : ExtTestdriver.KubeCtx × Except String String :=
  let currentNameSpace := ctx.contextNamespace
  let nsToUse := if namespaceToUse = "" then currentNameSpace else namespaceToUse
  let ctx1 := ExtTestdriver.setCurrentNameSpace nsToUse ctx
  let ctx2 := ExtTestdriver.setCurrentNameSpace currentNameSpace ctx1
  if cmdSucceeds then (ctx2, .ok stdout)
  else (ctx2, .error "Unable to execute command")

end ExternalBash

namespace Certify

/-- The guard in certify.Test (certify.go lines 37-39): the built-in registry
drivers run only when neither flag handler has cleared its package's
RunCustomTestDriver. -/
def runsBuiltinDrivers (externalRunCustom extTestdriverRunCustom : Bool) : Bool :=
  externalRunCustom && extTestdriverRunCustom

end Certify

/-! Claim theorems. -/

/-- C1: for every driver definition whose storage-class strategy is empty
(StorageClass.FromName false and StorageClass.FromFile empty),
SkipUnsupportedTest on any pattern with VolType DynamicPV emits the
volume-type skip, whose diagnostic arguments name the driver and the volume
type, and never proceeds to run the test. -/
theorem emptyStorageClass_dynamicPV_always_skipped
    (d : DriverDefinition) (p : TestPattern)
    (h1 : d.StorageClass.FromName = false) (h2 : d.StorageClass.FromFile = "")
    (hv : p.VolType = DynamicPV) :
    External.SkipUnsupportedTest d p =
      SkipOutcome.skip volTypeFmt [d.DriverInfo.Name, p.VolType] := by
  unfold External.SkipUnsupportedTest External.volTypeSupported
  rw [hv, h1, h2]
  simp

/-- C1 witness: the skip at a concrete empty-strategy driver and DynamicPV pattern. -/
theorem emptyStorageClass_dynamicPV_always_skipped_instance :
    External.SkipUnsupportedTest
      { DriverInfo := { Name := "drv" },
        StorageClass := { FromName := false, FromFile := "" },
        SnapshotClass := { FromName := false } }
      { VolType := DynamicPV, FsType := "", SnapshotType := "" } =
      SkipOutcome.skip volTypeFmt ["drv", DynamicPV] :=
  emptyStorageClass_dynamicPV_always_skipped _ _ rfl rfl rfl

/-- C2: with StorageClass.FromName true, the derived StorageClass has a
parameters map that maps the fstype key to the requested fsType exactly when
fsType is non-empty, and is the empty map when fsType is empty. -/
theorem fromName_fstype_parameter_iff
    (d : DriverDefinition) (ns fsType : String)
    (lr : Except String (List ManifestItem)) (pr : Except String Unit)
    (h : d.StorageClass.FromName = true) :
    ∃ ps, External.GetDynamicProvisionStorageClass d ns fsType lr pr =
        SCResult.ok { name := d.DriverInfo.Name ++ "-sc",
                      provisioner := d.DriverInfo.Name,
                      parameters := some ps } ∧
      (mapGet ps fstypeParamKey = some fsType ↔ fsType ≠ "") ∧
      (fsType = "" → ps = []) := by
  by_cases hfs : fsType = ""
  · refine ⟨[], ?_, ?_, fun _ => rfl⟩
    · simp [External.GetDynamicProvisionStorageClass, GetStorageClass, h, hfs]
    · subst hfs
      simp [mapGet]
  · refine ⟨[(fstypeParamKey, fsType)], ?_, ?_, fun hc => absurd hc hfs⟩
    · simp [External.GetDynamicProvisionStorageClass, GetStorageClass, mapSet, h, hfs]
    · simp [mapGet, hfs]

/-- C2 witness: the parameter map at a concrete FromName driver with fsType "xfs". -/
theorem fromName_fstype_parameter_iff_instance :
    ∃ ps, External.GetDynamicProvisionStorageClass
        { DriverInfo := { Name := "drv" },
          StorageClass := { FromName := true, FromFile := "" },
          SnapshotClass := { FromName := false } }
        "ns1" "xfs" (.ok []) (.ok ()) =
        SCResult.ok { name := "drv" ++ "-sc", provisioner := "drv", parameters := some ps } ∧
      (mapGet ps fstypeParamKey = some "xfs" ↔ ("xfs" : String) ≠ "") ∧
      (("xfs" : String) = "" → ps = []) :=
  fromName_fstype_parameter_iff _ "ns1" "xfs" (.ok []) (.ok ()) rfl

/-- C3 counterexample: a driver definition with SnapshotClass.FromName true
and a pattern whose SnapshotType is neither empty nor DynamicCreatedSnapshot:
the claim calls the snapshot dimension supported, but SkipUnsupportedTest
emits the snapshot skip. -/
theorem snapshot_iff_claim_fails_on_unknown_snapshot_type :
    ({ DriverInfo := { Name := "drv" },
       StorageClass := { FromName := true, FromFile := "" },
       SnapshotClass := { FromName := true } } : DriverDefinition).SnapshotClass.FromName = true ∧
    ("UnknownSnapshotKind" : String) ≠ "" ∧
    External.SkipUnsupportedTest
      { DriverInfo := { Name := "drv" },
        StorageClass := { FromName := true, FromFile := "" },
        SnapshotClass := { FromName := true } }
      { VolType := DynamicPV, FsType := "", SnapshotType := "UnknownSnapshotKind" } =
      SkipOutcome.skip snapTypeFmt ["drv", "UnknownSnapshotKind"] := by
  decide

/-- C3 amended: the snapshot dimension is supported iff SnapshotType is empty
or SnapshotType is DynamicCreatedSnapshot and SnapshotClass.FromName is true;
any other snapshot type is unsupported. A pattern with empty SnapshotType is
never skipped with the snapshot diagnostic, whatever the definition. -/
theorem snapshot_dimension_support
    (d : DriverDefinition) (p : TestPattern) :
    (External.snapTypeSupported d p = true ↔
      (p.SnapshotType = "" ∨
        (p.SnapshotType = DynamicCreatedSnapshot ∧ d.SnapshotClass.FromName = true))) ∧
    (p.SnapshotType = "" →
      ∀ args, External.SkipUnsupportedTest d p ≠ SkipOutcome.skip snapTypeFmt args) := by
  constructor
  · unfold External.snapTypeSupported
    by_cases h0 : p.SnapshotType = ""
    · simp [h0]
    · by_cases h1 : p.SnapshotType = DynamicCreatedSnapshot
      · simp [h0, h1]
      · simp [h0, h1]
  · intro h0 args
    unfold External.SkipUnsupportedTest
    by_cases hv : External.volTypeSupported d p = true
    · simp [hv, External.snapTypeSupported, h0]
    · rw [Bool.not_eq_true] at hv
      rw [hv]
      simp [volTypeFmt, snapTypeFmt]

/-- C3 amended witness: at a concrete definition and empty snapshot type, the
snapshot skip is not emitted. -/
theorem snapshot_dimension_support_instance :
    External.SkipUnsupportedTest
      { DriverInfo := { Name := "drv" },
        StorageClass := { FromName := false, FromFile := "" },
        SnapshotClass := { FromName := false } }
      { VolType := InlineVolume, FsType := "", SnapshotType := "" } ≠
      SkipOutcome.skip snapTypeFmt ["drv", ""] :=
  (snapshot_dimension_support _ _).2 rfl ["drv", ""]

/-- C4: with the load-from-file strategy, GetDynamicProvisionStorageClass
never skips; a manifest yielding a number of objects other than one is fatal;
a single non-StorageClass object is fatal; and a single StorageClass with a
non-empty requested fsType gets the fstype parameter injected, creating the
parameter map if it was nil. -/
theorem fromFile_manifest_fatal_and_fstype_injection
    (d : DriverDefinition) (ns fsType : String)
    (lr : Except String (List ManifestItem)) (pr : Except String Unit)
    (h1 : d.StorageClass.FromName = false) (h2 : d.StorageClass.FromFile ≠ "") :
    (∀ fmt args,
      External.GetDynamicProvisionStorageClass d ns fsType lr pr ≠ SCResult.skip fmt args) ∧
    (∀ items, lr = .ok items → items.length ≠ 1 →
      External.GetDynamicProvisionStorageClass d ns fsType lr pr =
        SCResult.fatal ("exactly one item from " ++ d.StorageClass.FromFile)) ∧
    (∀ k, lr = .ok [ManifestItem.otherObject k] →
      ∃ msg, External.GetDynamicProvisionStorageClass d ns fsType lr pr = SCResult.fatal msg) ∧
    (∀ sc, lr = .ok [ManifestItem.storageClass sc] → pr = .ok () → fsType ≠ "" →
      External.GetDynamicProvisionStorageClass d ns fsType lr pr =
        SCResult.ok { sc with
          parameters := some (mapSet (sc.parameters.getD []) fstypeParamKey fsType) }) := by
  refine ⟨?_, ?_, ?_, ?_⟩
  · intro fmt args
    rcases lr with e | items
    · simp [External.GetDynamicProvisionStorageClass, h1]
    · rcases items with _ | ⟨item, rest⟩
      · simp [External.GetDynamicProvisionStorageClass, h1]
      · rcases rest with _ | ⟨i2, rest2⟩
        · rcases item with sc | k
          · rcases pr with pe | pu
            · simp [External.GetDynamicProvisionStorageClass, h1]
            · by_cases hfs : fsType = "" <;>
                simp [External.GetDynamicProvisionStorageClass, h1, hfs]
          · rcases pr with pe | pu <;>
              simp [External.GetDynamicProvisionStorageClass, h1]
        · simp [External.GetDynamicProvisionStorageClass, h1]
  · intro items hlr hlen
    subst hlr
    rcases items with _ | ⟨a, _ | ⟨b, rest⟩⟩
    · simp [External.GetDynamicProvisionStorageClass, h1]
    · exact absurd rfl hlen
    · simp [External.GetDynamicProvisionStorageClass, h1]
  · intro k hlr
    subst hlr
    rcases pr with pe | pu
    · exact ⟨"patch items", by simp [External.GetDynamicProvisionStorageClass, h1]⟩
    · exact ⟨"storage class from " ++ d.StorageClass.FromFile,
        by simp [External.GetDynamicProvisionStorageClass, h1]⟩
  · intro sc hlr hpr hfs
    subst hlr
    subst hpr
    simp [External.GetDynamicProvisionStorageClass, h1, hfs]

/-- C4 witness: at a concrete FromFile driver, a two-object manifest is fatal. -/
theorem fromFile_manifest_fatal_and_fstype_injection_instance :
    External.GetDynamicProvisionStorageClass
      { DriverInfo := { Name := "drv" },
        StorageClass := { FromName := false, FromFile := "sc.yaml" },
        SnapshotClass := { FromName := false } }
      "ns1" ""
      (.ok [ManifestItem.otherObject "Pod", ManifestItem.otherObject "Pod"]) (.ok ()) =
      SCResult.fatal ("exactly one item from " ++ "sc.yaml") :=
  (fromFile_manifest_fatal_and_fstype_injection _ "ns1" ""
      (.ok [ManifestItem.otherObject "Pod", ManifestItem.otherObject "Pod"]) (.ok ())
      rfl (by decide)).2.1 _ rfl (by decide)

/-- C5: the hostpath FromName driver with requested fsType "ext4" derives the
StorageClass with provisioner "hostpath", parameters mapping the fstype key
to "ext4", and name "hostpath-sc" (the name rule is the spec-modelled part of
GetStorageClass). -/
theorem hostpath_ext4_derived_storageclass :
    External.GetDynamicProvisionStorageClass
      { DriverInfo := { Name := "hostpath" },
        StorageClass := { FromName := true, FromFile := "" },
        SnapshotClass := { FromName := false } }
      "certify-ns" "ext4" (.ok []) (.ok ()) =
      SCResult.ok { name := "hostpath-sc", provisioner := "hostpath",
                    parameters := some [("csi.storage.k8s.io/fstype", "ext4")] } := by
  decide

/-- C6: on a PreprovisionedPV pattern, the shell-script adapters treat the
volume type as supported exactly when the presence probe found both
createVolume and deleteVolume, while the YAML-defined driver definition skips
unconditionally. -/
theorem preprovisionedPV_support_by_probe
    (hasGDI hasCV hasDV : Bool) (d dd : DriverDefinition) (p : TestPattern)
    (hv : p.VolType = PreprovisionedPV) :
    (ExtTestdriver.volTypeSupported (ExtTestdriver.getTestDriverType hasGDI hasCV hasDV) d p
      = (hasCV && hasDV)) ∧
    (ExternalBash.volTypeSupported (ExternalBash.mkBashDriver dd hasCV hasDV) p
      = (hasCV && hasDV)) ∧
    (External.SkipUnsupportedTest d p =
      SkipOutcome.skip volTypeFmt [d.DriverInfo.Name, p.VolType]) := by
  refine ⟨?_, ?_, ?_⟩
  · unfold ExtTestdriver.volTypeSupported ExtTestdriver.getTestDriverType
    rw [hv, if_neg (by decide), if_pos rfl]
    simp
  · unfold ExternalBash.volTypeSupported ExternalBash.mkBashDriver
    rw [hv, if_neg (by decide), if_pos rfl]
    simp
  · have hfalse : External.volTypeSupported d p = false := by
      unfold External.volTypeSupported
      rw [hv]
      rw [if_neg (show ¬((PreprovisionedPV : String) = DynamicPV) from by decide)]
    unfold External.SkipUnsupportedTest
    rw [hfalse, hv]
    simp

/-- C6 witness: the three support verdicts at concrete inputs with both probe
functions present. -/
theorem preprovisionedPV_support_by_probe_instance :
    ExtTestdriver.volTypeSupported (ExtTestdriver.getTestDriverType true true true)
      { DriverInfo := { Name := "drv" },
        StorageClass := { FromName := false, FromFile := "" },
        SnapshotClass := { FromName := false } }
      { VolType := PreprovisionedPV, FsType := "", SnapshotType := "" }
      = (true && true) :=
  (preprovisionedPV_support_by_probe true true true _
      { DriverInfo := { Name := "drv" },
        StorageClass := { FromName := false, FromFile := "" },
        SnapshotClass := { FromName := false } }
      _ rfl).1

/-- C7: with the getDriverInfo presence probe negative, DriverCall.Set ends in
a returned flag error or the Failf fatal and never reaches the Describe that
defines tests; the bash-testdriver Set returns the invalid-testdriver error
directly. -/
theorem missing_getDriverInfo_hard_failure
    (filename : String) (hasCV hasDV : Bool)
    (decodeResult getDriverDefResult : Except String DriverDefinition) :
    (∀ n, (ExtTestdriver.DriverCall.Set filename false hasCV hasDV decodeResult).2 ≠
      SetOutcome.testsDefined n) ∧
    ((∃ e, (ExtTestdriver.DriverCall.Set filename false hasCV hasDV decodeResult).2 =
        SetOutcome.flagError e) ∨
      (ExtTestdriver.DriverCall.Set filename false hasCV hasDV decodeResult).2 =
        SetOutcome.fatal ExtTestdriver.invalidTestDriverMsg) ∧
    ((ExternalBash.BashDriverParameter.Set filename false getDriverDefResult).2 =
      SetOutcome.flagError ExtTestdriver.invalidTestDriverMsg) := by
  refine ⟨?_, ?_, ?_⟩
  · intro n
    unfold ExtTestdriver.DriverCall.Set
    rcases hr : (if filename = ""
        then (Except.error "missing file name" : Except String DriverDefinition)
        else decodeResult) with e | driver <;>
      simp [hr, ExtTestdriver.getTestDriverType]
  · unfold ExtTestdriver.DriverCall.Set
    rcases hr : (if filename = ""
        then (Except.error "missing file name" : Except String DriverDefinition)
        else decodeResult) with e | driver
    · exact Or.inl ⟨e, by simp [hr]⟩
    · exact Or.inr (by simp [hr, ExtTestdriver.getTestDriverType])
  · unfold ExternalBash.BashDriverParameter.Set
    simp

/-- C7 witness: the bash-testdriver Set at a concrete filename with the probe
negative returns the invalid-testdriver error. -/
theorem missing_getDriverInfo_hard_failure_instance :
    (ExternalBash.BashDriverParameter.Set "mydriver.sh" false
      (Except.error "exec failed")).2 =
      SetOutcome.flagError ExtTestdriver.invalidTestDriverMsg :=
  (missing_getDriverInfo_hard_failure "mydriver.sh" true true
    (Except.error "exec failed") (Except.error "exec failed")).2.2

/-- C8: CreateVolume returns the parsed attribute map as the test volume when
the captured standard output parses as a flat string map, and panics on any
parse failure, including the empty output of a failed subprocess. -/
theorem createVolume_parses_or_panics
    (parse : String → Except String (List (String × String))) (execOut : Option String) :
    (∀ out m, execOut = some out → parse out = .ok m →
      ExtTestdriver.CreateVolume parse execOut = ExtTestdriver.VolumeOutcome.volume m) ∧
    (∀ out e, execOut = some out → parse out = .error e →
      ExtTestdriver.CreateVolume parse execOut = ExtTestdriver.VolumeOutcome.panic e) ∧
    (execOut = none →
      ∃ msg, ExtTestdriver.CreateVolume parse execOut = ExtTestdriver.VolumeOutcome.panic msg) := by
  refine ⟨?_, ?_, ?_⟩
  · intro out m hout hparse
    subst hout
    simp [ExtTestdriver.CreateVolume, hparse]
  · intro out e hout hparse
    subst hout
    simp [ExtTestdriver.CreateVolume, hparse]
  · intro hout
    subst hout
    exact ⟨"unexpected end of JSON input", rfl⟩

/-- C8 witness: a concrete successful parse becomes the volume's attributes. -/
theorem createVolume_parses_or_panics_instance :
    ExtTestdriver.CreateVolume (fun _ => .ok [("a", "b")]) (some "out") =
      ExtTestdriver.VolumeOutcome.volume [("a", "b")] :=
  (createVolume_parses_or_panics (fun _ => .ok [("a", "b")]) (some "out")).1 "out" [("a", "b")]
    rfl rfl

/-- C9 counterexample: the external-testdriver execCommand, started with
namespace "ns-a" in the cluster configuration and global current namespace
"ns-b", leaves the namespace at "ns-b" on the success path and at "default"
on the failure path, neither of which is the prior value "ns-a". -/
theorem execCommand_namespace_not_restored :
    (ExtTestdriver.execCommand "ns-b" true "out"
      { contextName := "ctx", contextNamespace := "ns-a" }).1.contextNamespace = "ns-b" ∧
    (ExtTestdriver.execCommand "ns-b" false "out"
      { contextName := "ctx", contextNamespace := "ns-a" }).1.contextNamespace = "default" ∧
    ("ns-b" : String) ≠ "ns-a" ∧ ("default" : String) ≠ "ns-a" := by
  decide

/-- C9 amended: the bash-testdriver adapter's execCommand leaves the cluster
configuration unchanged on both paths; the external-testdriver adapter's
execCommand instead leaves the namespace at its global current-namespace
value on success and resets it to "default" on failure. -/
theorem execCommand_namespace_effects
    (namespaceToUse curNS stdout : String) (cmdSucceeds : Bool)
    (ctx : ExtTestdriver.KubeCtx) :
    ((ExternalBash.execCommand namespaceToUse cmdSucceeds stdout ctx).1 = ctx) ∧
    ((ExtTestdriver.execCommand curNS true stdout ctx).1.contextNamespace = curNS) ∧
    ((ExtTestdriver.execCommand curNS false stdout ctx).1.contextNamespace = "default") := by
  refine ⟨?_, ?_, ?_⟩
  · cases ctx
    by_cases hc : cmdSucceeds <;>
      simp [ExternalBash.execCommand, ExtTestdriver.setCurrentNameSpace, hc]
  · simp [ExtTestdriver.execCommand, ExtTestdriver.setCurrentNameSpace]
  · simp [ExtTestdriver.execCommand, ExtTestdriver.setCurrentNameSpace]

/-- C9 amended witness: the bash-testdriver execCommand leaves a concrete
cluster configuration unchanged. -/
theorem execCommand_namespace_effects_instance :
    (ExternalBash.execCommand "ns-x" true "out"
      { contextName := "ctx", contextNamespace := "ns-0" }).1 =
      { contextName := "ctx", contextNamespace := "ns-0" } :=
  (execCommand_namespace_effects "ns-x" "cur" "out" true
    { contextName := "ctx", contextNamespace := "ns-0" }).1

/-- C10: both flag handlers leave their package's RunCustomTestDriver at
false on every path, including error returns, so the certify.Test guard that
runs the built-in registry drivers is false afterwards. -/
theorem runCustomTestDriver_false_after_set
    (filename : String) (loadResult decodeResult : Except String DriverDefinition)
    (hasGDI hasCV hasDV otherFlag : Bool) :
    ((External.DriverDefParameter.Set filename loadResult).1 = false) ∧
    ((ExtTestdriver.DriverCall.Set filename hasGDI hasCV hasDV decodeResult).1.RunCustomTestDriver
      = false) ∧
    (Certify.runsBuiltinDrivers (External.DriverDefParameter.Set filename loadResult).1 otherFlag
      = false) ∧
    (Certify.runsBuiltinDrivers otherFlag
      (ExtTestdriver.DriverCall.Set filename hasGDI hasCV hasDV decodeResult).1.RunCustomTestDriver
      = false) := by
  have hext : (External.DriverDefParameter.Set filename loadResult).1 = false := by
    unfold External.DriverDefParameter.Set
    rcases hr : (if filename = ""
        then (Except.error "missing file name" : Except String DriverDefinition)
        else loadResult) with e | driver
    · simp [hr]
    · simp only [hr]
      split <;> rfl
  have htd : (ExtTestdriver.DriverCall.Set filename hasGDI hasCV hasDV
      decodeResult).1.RunCustomTestDriver = false := by
    unfold ExtTestdriver.DriverCall.Set
    rcases hr : (if filename = ""
        then (Except.error "missing file name" : Except String DriverDefinition)
        else decodeResult) with e | driver
    · simp [hr]
    · simp only [hr]
      split
      · rfl
      · split <;> rfl
  refine ⟨hext, htd, ?_, ?_⟩
  · rw [hext]
    simp [Certify.runsBuiltinDrivers]
  · rw [htd]
    simp [Certify.runsBuiltinDrivers]

/-- C10 witness: a failing driverdef flag value still leaves
RunCustomTestDriver false. -/
theorem runCustomTestDriver_false_after_set_instance :
    (External.DriverDefParameter.Set "drv.yaml" (Except.error "undecodable")).1 = false :=
  (runCustomTestDriver_false_after_set "drv.yaml" (Except.error "undecodable")
    (Except.error "undecodable") true true true true).1

end CsiCertify
